import Mathlib

/-!
Shallow embedding of the time-tracking session lifecycle and periodic capture
scheduler of the `TimeTracker` React component (src/unnamed/part_000).

Modelling conventions:
- React `useState`/`useRef` cells become fields of `TrackerState`; a setter
  call writes the live state.  Handlers and interval callbacks, however, are
  closures over the render that created them: reads of `useState` values
  inside them see that render's values, not later writes.  Concretely,
  `handleStartTracking` tests the PRE-probe flag values at line 208 (the
  values captured by the click render, unaffected by the setters
  `checkPermissions` just called), and the `captureScreenshots` closure it
  invokes immediately and arms as the interval callback sees the click
  render's `currentTimeEntry`, which is `null` whenever the Start button was
  visible.  `useRef` cells (`intervalRef`, `webcamRef`) are always current.
- The `useEffect` with dependency `[currentTimeEntry]` (lines 108-119) is run
  synchronously whenever `currentTimeEntry` changes value: first the previous
  effect's cleanup, then the new body.  This matches the realistic browser
  schedule in which React flushes the effect at the `await` boundary inside the
  handlers, before the handler's remaining statements run.
- Browser timers (`window.setInterval` / `clearInterval`) become a list of
  armed `Timer`s carried in the state plus a fresh-id counter; `clearInterval`
  removes a timer by id and is a no-op on an id that is not armed.
- Time instants are `Nat` milliseconds since the epoch; the ISO-8601 string a
  capture cycle computes via `new Date().toISOString()` is supplied by the
  cycle's oracle as an opaque `String` (it is only ever used as text).
- All fallible external calls (supabase inserts/updates/queries, media-stream
  acquisition, frame grabbing/encoding, storage uploads) are resolved by
  explicit oracle records passed to each handler, one field per call site.
  Note that the supabase client never throws: every call resolves to a
  `\x7b data, error \x7d` pair, and the component re-throws only where it
  explicitly checks `error` (lines 62, 201, 227).  The storage uploads at
  lines 262 and 285 and the metadata insert at line 302 discard that result,
  so their failures are invisible to the component; the oracle still records
  the outcome so that theorems can speak about it.
- Side effects visible to collaborators are logged in an `Effect` trace.
-/

namespace TimeTrackerSpec

/-- Kind of a captured image: the `type` column, 'screen' or 'webcam'. -/
inductive CaptureKind where
  | screen
  | webcam
deriving DecidableEq, Repr

/-- String form of a capture kind as it appears in storage paths. -/
def kindName : CaptureKind → String
  | CaptureKind.screen => "screen"
  | CaptureKind.webcam => "webcam"

/-- A row of the `time_entries` collection (interface at lines 21-26).
`start_time`/`end_time` are epoch milliseconds; `end_time = none` means the
session is still open. -/
structure TimeEntry where
  id : String
  user_id : String
  start_time : Nat
  end_time : Option Nat
deriving DecidableEq, Repr

/-- A row of the `screenshots` collection (interface at lines 9-19,
restricted to the fields the tracker writes at lines 264-269 / 287-292). -/
structure Screenshot where
  time_entry_id : String
  storage_path : String
  type : CaptureKind
  taken_at : String
deriving DecidableEq, Repr

/-- The persistence collaborator's state: the two collections the tracker
writes. -/
structure DB where
  time_entries : List TimeEntry
  screenshots : List Screenshot
deriving DecidableEq, Repr

/-- What callback an armed browser interval runs: the capture scheduler
(line 209) or the elapsed-time display updater (line 111). -/
inductive TimerKind where
  | capture
  | elapsedDisplay
deriving DecidableEq, Repr

/-- An armed `window.setInterval` timer. -/
structure Timer where
  id : Nat
  kind : TimerKind
  periodMs : Nat
deriving DecidableEq, Repr

/-- The component's mutable cells: `useState`/`useRef` hooks of lines 38-46,
plus the set of currently armed browser timers and a fresh timer-id counter. -/
structure TrackerState where
  user_id : String
  currentTimeEntry : Option TimeEntry
  hasScreenPermission : Bool
  hasWebcamPermission : Bool
  elapsedTime : String
  errorMsg : Option String
  intervalRef : Option Nat
  timers : List Timer
  nextTimerId : Nat
deriving DecidableEq, Repr

/-- Externally visible side effects of one handler invocation. -/
inductive Effect where
  | probeScreen (granted : Bool)
  | probeWebcam (granted : Bool)
  | acquireScreenStream
  | webcamFrame
  | upload (path : String)
  | insertScreenshots (rows : List Screenshot)
  | insertTimeEntry (e : TimeEntry)
  | updateTimeEntry (id : String) (endMs : Nat)
  | cycleInvoked
deriving DecidableEq, Repr

/-- window.clearInterval: disarm the timer with this id.  Clearing an id that
is not armed leaves the timer set unchanged. -/
def clearIntervalJs (ts : List Timer) (i : Nat) : List Timer :=
  ts.filter (fun t => t.id ≠ i)

/-- The cleanup of the effect on `[currentTimeEntry]` (line 117): clear
whatever interval `intervalRef` currently holds. -/
def cleanupTimers (s : TrackerState) : List Timer :=
  match s.intervalRef with
  | some i => clearIntervalJs s.timers i
  | none => s.timers

/-- JS `str.padStart(2, '0')` (line 133). -/
def padStart2 (str : String) : String :=
  if 2 ≤ str.length then str
  else String.mk (List.replicate (2 - str.length) '0') ++ str

/-- The body of `updateElapsedTime` (lines 124-134).  JS `Math.floor` of a real
division is floor division (`Int.fdiv`); JS `%` on integers is truncating
remainder (`Int.tmod`).  The two agree with `Nat` division/remainder whenever
`startMs ≤ nowMs`. -/
def jsElapsedString (startMs nowMs : Int) : String :=
  let diff := Int.fdiv (nowMs - startMs) 1000
  let hours := Int.fdiv diff 3600
  let minutes := Int.fdiv (Int.tmod diff 3600) 60
  let seconds := Int.tmod diff 60
  padStart2 (toString hours) ++ ":" ++ padStart2 (toString minutes) ++ ":"
    ++ padStart2 (toString seconds)

/-- `updateElapsedTime` (lines 121-135): recompute the display string from the
running entry's start time; do nothing when no entry is current. -/
def updateElapsedTime (s : TrackerState) (nowMs : Nat) : TrackerState :=
  match s.currentTimeEntry with
  | none => s
  | some e => { s with elapsedTime := jsElapsedString (e.start_time : Int) (nowMs : Int) }

/-- Models `setCurrentTimeEntry v` together with the rerun of the React effect
on `[currentTimeEntry]` (lines 108-119) that a changed value triggers: the
previous effect's cleanup (line 117: clear the interval held in `intervalRef`)
runs first, then the new body (arm a 1000 ms elapsed-display interval into
`intervalRef` when an entry is present, after one immediate
`updateElapsedTime()`; otherwise clear the interval held in `intervalRef`,
which the cleanup just cleared, a no-op). -/
def setCurrentTimeEntryEff (s : TrackerState) (v : Option TimeEntry) (nowMs : Nat) :
    TrackerState :=
  if s.currentTimeEntry = v then { s with currentTimeEntry := v }
  else
    let s1 := { s with currentTimeEntry := v }
    let ts0 := cleanupTimers s1
    match v with
    | some _ =>
      let s2 := updateElapsedTime { s1 with timers := ts0 } nowMs
      { s2 with timers := ts0 ++ [⟨s2.nextTimerId, TimerKind.elapsedDisplay, 1000⟩],
                intervalRef := some s2.nextTimerId,
                nextTimerId := s2.nextTimerId + 1 }
    | none => { s1 with timers := ts0 }

/-- Result of the permission probe (lines 80-102): one boolean per media kind.
Each inner `try` maps denial to `false`, so the probe itself never throws. -/
structure ProbeResult where
  screen : Bool
  webcam : Bool
deriving DecidableEq, Repr

/-- `checkPermissions` (lines 80-102): overwrite both permission flags with the
probe's outcome. -/
def checkPermissionsEff (s : TrackerState) (p : ProbeResult) : TrackerState :=
  { s with hasScreenPermission := p.screen, hasWebcamPermission := p.webcam }

/-- Oracle resolving the external calls of one capture cycle
(`captureScreenshots`, lines 237-309). -/
structure CycleOracle where
  /-- `new Date().toISOString()` computed once at line 241. -/
  timestamp : String
  /-- whether `getDisplayMedia` / `grabFrame` / canvas encoding throws
  (lines 247-259); caught at line 272. -/
  screenThrows : Bool
  /-- result of the screen upload at line 262.  The component discards it, so
  this field is deliberately unused by the model of the cycle: a failed upload
  is invisible to the component. -/
  screenUploadOk : Bool
  /-- whether `webcamRef.current` is non-null (line 279). -/
  webcamRefPresent : Bool
  /-- whether `getScreenshot()` returns a non-null image (line 282).  When it
  does, line 283 calls `base64ToBlob`, which is not defined or imported
  anywhere in the repository, so the branch deterministically throws
  `ReferenceError` there, before the upload at line 285. -/
  webcamShot : Bool
  /-- result of the batch metadata insert at line 302; also discarded by the
  component (no `error` check), so on failure no rows appear but nothing else
  happens. -/
  insertOk : Bool
deriving DecidableEq, Repr

/-- Storage path of a screen capture (line 261). -/
def screenPath (uid sid ts : String) : String :=
  uid ++ "/" ++ sid ++ "/screen_" ++ ts ++ ".jpg"

/-- Storage path of a webcam capture (line 284).  Unreachable in the program:
the throw at line 283 precedes it (see `webcamBranch`). -/
def webcamPath (uid sid ts : String) : String :=
  uid ++ "/" ++ sid ++ "/webcam_" ++ ts ++ ".jpg"

/-- Outcome of one guarded capture branch of the cycle. -/
structure BranchOut where
  state : TrackerState
  events : List Effect
  rows : List Screenshot
deriving DecidableEq, Repr

/-- The screen branch of a capture cycle (lines 244-276): when
`hasScreenPermission`, acquire a stream and grab/encode a frame; on a thrown
failure downgrade the flag and record nothing; otherwise upload (result
discarded, see `CycleOracle.screenUploadOk`) and stage one metadata row. -/
def screenBranch (s : TrackerState) (entry : TimeEntry) (o : CycleOracle) : BranchOut :=
  if s.hasScreenPermission then
    if o.screenThrows then
      ⟨{ s with hasScreenPermission := false }, [Effect.acquireScreenStream], []⟩
    else
      ⟨s, [Effect.acquireScreenStream, Effect.upload (screenPath s.user_id entry.id o.timestamp)],
        [⟨entry.id, screenPath s.user_id entry.id o.timestamp, CaptureKind.screen, o.timestamp⟩]⟩
  else ⟨s, [], []⟩

/-- The webcam branch of a capture cycle (lines 278-298): when
`hasWebcamPermission` and the ref is mounted, take a webcam frame (line 281).
When `getScreenshot()` returns an image, line 283 calls `base64ToBlob` — a
function that is not defined or imported anywhere in the repository — so the
branch throws `ReferenceError` there; the catch at line 294 downgrades the
webcam flag and nothing is staged.  When the shot is null the body of the
`if (webcamShot)` at line 282 is skipped.  The upload and metadata push at
lines 284-292 are therefore unreachable: the program can never produce a
webcam Capture row. -/
def webcamBranch (s : TrackerState) (_entry : TimeEntry) (o : CycleOracle) : BranchOut :=
  if s.hasWebcamPermission && o.webcamRefPresent then
    if o.webcamShot then
      ⟨{ s with hasWebcamPermission := false }, [Effect.webcamFrame], []⟩
    else ⟨s, [Effect.webcamFrame], []⟩
  else ⟨s, [], []⟩

/-- Result of one invocation of the capture pipeline. -/
structure CycleResult where
  state : TrackerState
  db : DB
  events : List Effect
  insertData : List Screenshot
deriving DecidableEq, Repr

/-- `captureScreenshots` (lines 237-309): bail out when no session is current
(line 238); compute one shared timestamp (line 241, supplied by the oracle);
run the screen branch then the webcam branch; if any row was staged, submit the
batch insert (line 302) whose unchecked result decides whether the rows land in
the collection. -/
def captureScreenshots (s : TrackerState) (db : DB) (o : CycleOracle) : CycleResult :=
  match s.currentTimeEntry with
  | none => ⟨s, db, [], []⟩
  | some entry =>
    let b1 := screenBranch s entry o
    let b2 := webcamBranch b1.state entry o
    let data := b1.rows ++ b2.rows
    if data.isEmpty then ⟨b2.state, db, b1.events ++ b2.events, data⟩
    else
      ⟨b2.state,
        if o.insertOk then { db with screenshots := db.screenshots ++ data } else db,
        b1.events ++ b2.events ++ [Effect.insertScreenshots data], data⟩

/-- Result of a lifecycle handler invocation. -/
structure StepResult where
  state : TrackerState
  db : DB
  events : List Effect
deriving DecidableEq, Repr

/-- Oracle resolving the external calls of `handleStartTracking`. -/
structure StartOracle where
  /-- `new Date()` at line 196, in epoch milliseconds. -/
  nowMs : Nat
  /-- whether the `time_entries` insert of lines 192-199 succeeds. -/
  insertOk : Bool
  /-- the id the persistence layer mints for the new row. -/
  newId : String
  /-- outcome of the permission probe awaited at line 205. -/
  probe : ProbeResult
  /-- oracle for the immediate capture cycle of line 210. -/
  cycle : CycleOracle
deriving DecidableEq, Repr

/-- Apply to the live state the writes a closure-running capture callback
performed.  The capture pipeline's only state writes are the two permission
setters and the error banner (lines 274, 296, 307): a field is carried over
exactly when the callback changed it relative to the view it closed over;
every other field of the live state is untouched by the callback. -/
def applyCallbackWrites (live snap result : TrackerState) : TrackerState :=
  { live with
      hasScreenPermission :=
        if result.hasScreenPermission = snap.hasScreenPermission then
          live.hasScreenPermission
        else result.hasScreenPermission,
      hasWebcamPermission :=
        if result.hasWebcamPermission = snap.hasWebcamPermission then
          live.hasWebcamPermission
        else result.hasWebcamPermission,
      errorMsg :=
        if result.errorMsg = snap.errorMsg then live.errorMsg else result.errorMsg }

/-- `handleStartTracking` (lines 189-216): insert a new open time entry; on a
persistence error set the banner and change nothing else (lines 212-215).  On
success adopt the entry and probe permissions (the setters write the live
state).  The handler itself is the click render's closure, so the test at
line 208 reads the PRE-probe flag values that render captured — not the
values the probe just stored.  When that stale test passes it arms the
5 * 60 * 1000 ms capture interval (line 209) and calls `captureScreenshots`
once (line 210); both that immediate call and the interval callback are the
same click-render closure, whose `currentTimeEntry` and flag reads are the
pre-click values (`currentTimeEntry` is `null` whenever the Start button was
visible, so the call bails at line 238).  The callback's setter writes, if
any, are merged into the live state by `applyCallbackWrites`. -/
def handleStartTracking (s : TrackerState) (db : DB) (o : StartOracle) : StepResult :=
  if o.insertOk then
    let entry : TimeEntry := ⟨o.newId, s.user_id, o.nowMs, none⟩
    let db1 : DB := { db with time_entries := db.time_entries ++ [entry] }
    let s1 := setCurrentTimeEntryEff s (some entry) o.nowMs
    let s2 := checkPermissionsEff s1 o.probe
    if s.hasScreenPermission || s.hasWebcamPermission then
      let tid := s2.nextTimerId
      let s3 : TrackerState :=
        { s2 with timers := s2.timers ++ [⟨tid, TimerKind.capture, 5 * 60 * 1000⟩],
                  intervalRef := some tid, nextTimerId := tid + 1 }
      let snap : TrackerState :=
        { s3 with currentTimeEntry := s.currentTimeEntry,
                  hasScreenPermission := s.hasScreenPermission,
                  hasWebcamPermission := s.hasWebcamPermission }
      let r := captureScreenshots snap db1 o.cycle
      ⟨applyCallbackWrites s3 snap r.state, r.db,
        [Effect.insertTimeEntry entry, Effect.probeScreen o.probe.screen,
         Effect.probeWebcam o.probe.webcam, Effect.cycleInvoked] ++ r.events⟩
    else
      ⟨s2, db1,
        [Effect.insertTimeEntry entry, Effect.probeScreen o.probe.screen,
         Effect.probeWebcam o.probe.webcam]⟩
  else
    ⟨{ s with errorMsg := some "Failed to start tracking" }, db, []⟩

/-- Oracle resolving the external calls of `handleStopTracking`. -/
structure StopOracle where
  /-- `new Date()` at line 224, in epoch milliseconds. -/
  nowMs : Nat
  /-- whether the `end_time` update of lines 222-225 succeeds. -/
  updateOk : Bool
deriving DecidableEq, Repr

/-- `handleStopTracking` (lines 218-235): return at once when no session is
current (line 219); otherwise update the row's `end_time`; on a persistence
error set the banner and change nothing else; on success drop the current
entry (whose effect rerun clears the interval held in `intervalRef`) and clear
`intervalRef`'s interval once more (line 230, a no-op by then). -/
def handleStopTracking (s : TrackerState) (db : DB) (o : StopOracle) : StepResult :=
  match s.currentTimeEntry with
  | none => ⟨s, db, []⟩
  | some entry =>
    if o.updateOk then
      let db1 : DB :=
        { db with time_entries := db.time_entries.map (fun e =>
            if e.id = entry.id then { e with end_time := some o.nowMs } else e) }
      let s1 := setCurrentTimeEntryEff s none o.nowMs
      let s2 := match s1.intervalRef with
        | some i => { s1 with timers := clearIntervalJs s1.timers i }
        | none => s1
      ⟨s2, db1, [Effect.updateTimeEntry entry.id o.nowMs]⟩
    else
      ⟨{ s with errorMsg := some "Failed to stop tracking" }, db, []⟩

/-- The user's open time entries, as selected by the query of lines 53-60
(`user_id` equal and `end_time` null). -/
def openEntries (db : DB) (uid : String) : List TimeEntry :=
  db.time_entries.filter (fun e => e.user_id = uid ∧ e.end_time = none)

/-- The query of `checkExistingTimeEntry` (lines 53-60): open entries of the
user, ordered by `start_time` descending, limited to one row, `maybeSingle`. -/
def queryOpenEntry (db : DB) (uid : String) : Option TimeEntry :=
  ((openEntries db uid).mergeSort (fun a b => decide (b.start_time ≤ a.start_time))).head?

/-- `checkExistingTimeEntry` (lines 48-73): on mount, adopt the latest open
entry when one exists (which also probes permissions); otherwise leave the
state alone. -/
def checkExistingTimeEntry (s : TrackerState) (db : DB) (p : ProbeResult) (nowMs : Nat) :
    TrackerState :=
  match queryOpenEntry db s.user_id with
  | some e => checkPermissionsEff (setCurrentTimeEntryEff s (some e) nowMs) p
  | none => s

/-- The screenshot rows recorded for a given session. -/
def screensOf (db : DB) (sid : String) : List Screenshot :=
  db.screenshots.filter (fun sc => sc.time_entry_id = sid)

/-- Component state and persistence state together, for running event
sequences. -/
structure Config where
  state : TrackerState
  db : DB
deriving DecidableEq, Repr

/-- Events that can occur while a session is running (between `start()` and
`stop()`): a firing of an armed browser interval, or a user stop attempt. -/
inductive MidEv where
  | fire (id : Nat) (nowMs : Nat) (o : CycleOracle)
  | stopAttempt (o : StopOracle)
deriving Repr

/-- One event step: a fired interval runs its callback (`updateElapsedTime` for
the display interval, `captureScreenshots` for the capture scheduler); an id
that is not armed fires nothing.  A stop attempt runs `handleStopTracking`.
The model runs a fired capture callback against the live state; in the
program the callback is the click-render closure whose `currentTimeEntry` is
`null`, so it bails at line 238 every tick.  Running it on the live state is
therefore an over-approximation — it can only stage more rows and downgrade
more flags than the program — which is sound for the no-capture and
timer-shape conclusions proved below (where, moreover, no capture timer is
ever armed, so the branch is unreachable). -/
def midStep (c : Config) (ev : MidEv) : Config :=
  match ev with
  | MidEv.fire i nowMs o =>
    match c.state.timers.find? (fun t => t.id = i) with
    | none => c
    | some t =>
      match t.kind with
      | TimerKind.elapsedDisplay => ⟨updateElapsedTime c.state nowMs, c.db⟩
      | TimerKind.capture =>
        let r := captureScreenshots c.state c.db o
        ⟨r.state, r.db⟩
  | MidEv.stopAttempt o =>
    let r := handleStopTracking c.state c.db o
    ⟨r.state, r.db⟩

/-- Run a sequence of mid-session events. -/
def runMid (c : Config) (evs : List MidEv) : Config :=
  evs.foldl midStep c

/-- The elapsed-display string as the spec words it: `floor((now-start)/1000)`
seconds decomposed into hours, minutes and seconds, each zero-padded to at
least two digits.  Stated over `Nat` for `startMs ≤ nowMs`, the claim's
domain. -/
def specElapsedHMS (startMs nowMs : Nat) : String :=
  let total := (nowMs - startMs) / 1000
  padStart2 (toString (total / 3600)) ++ ":" ++ padStart2 (toString (total % 3600 / 60))
    ++ ":" ++ padStart2 (toString (total % 60))

/-- Invariant of a session started while both capture permissions were denied:
both flags stay `false`, no capture timer is armed, and no screenshot row
exists for the session. -/
def deniedInv (sid : String) (c : Config) : Prop :=
  c.state.hasScreenPermission = false ∧ c.state.hasWebcamPermission = false ∧
  (∀ t ∈ c.state.timers, t.kind ≠ TimerKind.capture) ∧ screensOf c.db sid = []

/-- Sample open time entry, used by witness theorems. -/
def wsEntry : TimeEntry := ⟨"entry-1", "user-1", 0, none⟩

/-- Sample idle tracker state. -/
def wsIdle : TrackerState :=
  ⟨"user-1", none, false, false, "00:00:00", none, none, [], 0⟩

/-- Sample running tracker state: `wsEntry` current, both permissions granted,
an elapsed-display interval (id 0) and the capture interval (id 1, held by
`intervalRef`) armed. -/
def wsRunning : TrackerState :=
  ⟨"user-1", some wsEntry, true, true, "00:00:00", none, some 1,
    [⟨0, TimerKind.elapsedDisplay, 1000⟩, ⟨1, TimerKind.capture, 300000⟩], 2⟩

/-- Sample persistence state holding just the open entry. -/
def wsDBRun : DB := ⟨[wsEntry], []⟩

/-- Sample empty persistence state. -/
def wsDBEmpty : DB := ⟨[], []⟩

/-- Sample idle tracker state whose permission flags are still `true` from an
earlier session (granted then, revoked since): the click render of a new
start captures these stale values. -/
def wsIdleStale : TrackerState :=
  ⟨"user-1", none, true, true, "00:00:00", none, some 1, [], 2⟩

/-- Sample cycle oracle on which every external call succeeds (the webcam
shot is returned, so line 283 throws on the undefined `base64ToBlob`). -/
def wsCycle : CycleOracle :=
  ⟨"2024-01-01T00:00:00.000Z", false, true, true, true, true⟩

/-- Sample successful stop oracle. -/
def wsStop : StopOracle := ⟨310000, true⟩

/-- Sample failing stop oracle. -/
def wsStopFail : StopOracle := ⟨310000, false⟩

/-- Sample start oracle whose insert succeeds and whose probe grants both
permissions. -/
def wsStartGranted : StartOracle := ⟨0, true, "entry-1", ⟨true, true⟩, wsCycle⟩

/-- Sample start oracle whose insert succeeds and whose probe denies both
permissions. -/
def wsStartDenied : StartOracle := ⟨0, true, "entry-1", ⟨false, false⟩, wsCycle⟩

/-- Sample start oracle whose insert fails. -/
def wsStartFail : StartOracle := ⟨0, false, "entry-1", ⟨true, true⟩, wsCycle⟩

/-- Cycle oracle on which the screen capture throws while the webcam ref is
mounted and `getScreenshot()` returns an image (so line 283 throws on the
undefined `base64ToBlob`); the batch insert would succeed. -/
def c8ThrowInput : CycleOracle :=
  ⟨"2024-01-01T00:00:00.000Z", true, true, true, true, true⟩

/-- Cycle oracle on which the screen capture succeeds but its upload fails
(the result is returned, not thrown, and line 262 discards it), webcam as in
`c8ThrowInput`. -/
def c8UploadInput : CycleOracle :=
  ⟨"2024-01-01T00:00:00.000Z", false, false, true, true, true⟩

/-! ### Basic facts about the embedded operations -/

theorem mem_clearIntervalJs {ts : List Timer} {i : Nat} {t : Timer} :
    t ∈ clearIntervalJs ts i ↔ t ∈ ts ∧ t.id ≠ i := by
  simp [clearIntervalJs]

theorem mem_cleanupTimers {s : TrackerState} {t : Timer} (h : t ∈ cleanupTimers s) :
    t ∈ s.timers := by
  unfold cleanupTimers at h
  cases hr : s.intervalRef with
  | none => rw [hr] at h; exact h
  | some i => rw [hr] at h; exact (mem_clearIntervalJs.mp h).1

theorem updateElapsedTime_timers (s : TrackerState) (nowMs : Nat) :
    (updateElapsedTime s nowMs).timers = s.timers ∧
    (updateElapsedTime s nowMs).intervalRef = s.intervalRef ∧
    (updateElapsedTime s nowMs).hasScreenPermission = s.hasScreenPermission ∧
    (updateElapsedTime s nowMs).hasWebcamPermission = s.hasWebcamPermission ∧
    (updateElapsedTime s nowMs).currentTimeEntry = s.currentTimeEntry ∧
    (updateElapsedTime s nowMs).user_id = s.user_id ∧
    (updateElapsedTime s nowMs).nextTimerId = s.nextTimerId := by
  unfold updateElapsedTime
  cases h : s.currentTimeEntry <;> simp [h]

theorem setCurrentTimeEntryEff_some (s : TrackerState) (e : TimeEntry) (nowMs : Nat)
    (h : s.currentTimeEntry ≠ some e) :
    setCurrentTimeEntryEff s (some e) nowMs =
      { s with currentTimeEntry := some e,
               elapsedTime := jsElapsedString (e.start_time : Int) (nowMs : Int),
               timers := cleanupTimers s ++ [⟨s.nextTimerId, TimerKind.elapsedDisplay, 1000⟩],
               intervalRef := some s.nextTimerId,
               nextTimerId := s.nextTimerId + 1 } := by
  unfold setCurrentTimeEntryEff
  rw [if_neg h]
  have hclean : cleanupTimers { s with currentTimeEntry := some e } = cleanupTimers s := rfl
  dsimp only
  rw [hclean]
  simp [updateElapsedTime]

theorem setCurrentTimeEntryEff_none (s : TrackerState) (e : TimeEntry) (nowMs : Nat)
    (h : s.currentTimeEntry = some e) :
    setCurrentTimeEntryEff s none nowMs =
      { s with currentTimeEntry := none, timers := cleanupTimers s } := by
  unfold setCurrentTimeEntryEff
  rw [if_neg (by simp [h])]
  have hclean : cleanupTimers { s with currentTimeEntry := (none : Option TimeEntry) }
      = cleanupTimers s := rfl
  dsimp only
  rw [hclean]

theorem screenBranch_frame (s : TrackerState) (e : TimeEntry) (o : CycleOracle) :
    (screenBranch s e o).state.user_id = s.user_id ∧
    (screenBranch s e o).state.currentTimeEntry = s.currentTimeEntry ∧
    (screenBranch s e o).state.hasWebcamPermission = s.hasWebcamPermission ∧
    (screenBranch s e o).state.timers = s.timers ∧
    (screenBranch s e o).state.intervalRef = s.intervalRef ∧
    (screenBranch s e o).state.nextTimerId = s.nextTimerId := by
  unfold screenBranch
  split_ifs <;> simp

theorem webcamBranch_frame (s : TrackerState) (e : TimeEntry) (o : CycleOracle) :
    (webcamBranch s e o).state.user_id = s.user_id ∧
    (webcamBranch s e o).state.currentTimeEntry = s.currentTimeEntry ∧
    (webcamBranch s e o).state.hasScreenPermission = s.hasScreenPermission ∧
    (webcamBranch s e o).state.timers = s.timers ∧
    (webcamBranch s e o).state.intervalRef = s.intervalRef ∧
    (webcamBranch s e o).state.nextTimerId = s.nextTimerId := by
  unfold webcamBranch
  split_ifs <;> simp

theorem captureScreenshots_none (s : TrackerState) (db : DB) (o : CycleOracle)
    (h : s.currentTimeEntry = none) :
    captureScreenshots s db o = ⟨s, db, [], []⟩ := by
  unfold captureScreenshots
  rw [h]

theorem captureScreenshots_some_state (s : TrackerState) (db : DB) (o : CycleOracle)
    (e : TimeEntry) (h : s.currentTimeEntry = some e) :
    (captureScreenshots s db o).state = (webcamBranch (screenBranch s e o).state e o).state := by
  unfold captureScreenshots
  rw [h]
  dsimp only
  split <;> rfl

theorem captureScreenshots_some_insertData (s : TrackerState) (db : DB) (o : CycleOracle)
    (e : TimeEntry) (h : s.currentTimeEntry = some e) :
    (captureScreenshots s db o).insertData
      = (screenBranch s e o).rows ++ (webcamBranch (screenBranch s e o).state e o).rows := by
  unfold captureScreenshots
  rw [h]
  dsimp only
  split <;> rfl

theorem captureScreenshots_some_entries (s : TrackerState) (db : DB) (o : CycleOracle)
    (e : TimeEntry) (h : s.currentTimeEntry = some e) :
    (captureScreenshots s db o).db.time_entries = db.time_entries := by
  unfold captureScreenshots
  rw [h]
  dsimp only
  split
  · rfl
  · dsimp only
    split <;> rfl

theorem captureScreenshots_entries (s : TrackerState) (db : DB) (o : CycleOracle) :
    (captureScreenshots s db o).db.time_entries = db.time_entries := by
  cases h : s.currentTimeEntry with
  | none => rw [captureScreenshots_none s db o h]
  | some e => exact captureScreenshots_some_entries s db o e h

theorem captureScreenshots_frame (s : TrackerState) (db : DB) (o : CycleOracle) :
    (captureScreenshots s db o).state.user_id = s.user_id ∧
    (captureScreenshots s db o).state.currentTimeEntry = s.currentTimeEntry ∧
    (captureScreenshots s db o).state.timers = s.timers ∧
    (captureScreenshots s db o).state.intervalRef = s.intervalRef ∧
    (captureScreenshots s db o).state.nextTimerId = s.nextTimerId := by
  cases h : s.currentTimeEntry with
  | none => rw [captureScreenshots_none s db o h]; exact ⟨rfl, h.symm ▸ rfl, rfl, rfl, rfl⟩
  | some e =>
    rw [captureScreenshots_some_state s db o e h]
    obtain ⟨w1, w2, _, w4, w5, w6⟩ := webcamBranch_frame (screenBranch s e o).state e o
    obtain ⟨c1, c2, _, c4, c5, c6⟩ := screenBranch_frame s e o
    exact ⟨w1.trans c1, w2.trans (c2.trans h), w4.trans c4, w5.trans c5, w6.trans c6⟩

theorem captureScreenshots_no_cycle_marker (s : TrackerState) (db : DB) (o : CycleOracle) :
    Effect.cycleInvoked ∉ (captureScreenshots s db o).events := by
  have hs : ∀ s' e, Effect.cycleInvoked ∉ (screenBranch s' e o).events := by
    intro s' e
    unfold screenBranch
    split_ifs <;> simp
  have hw : ∀ s' e, Effect.cycleInvoked ∉ (webcamBranch s' e o).events := by
    intro s' e
    unfold webcamBranch
    split_ifs <;> simp
  cases h : s.currentTimeEntry with
  | none => rw [captureScreenshots_none s db o h]; simp
  | some e =>
    unfold captureScreenshots
    rw [h]
    dsimp only
    split
    · simp only [List.mem_append]
      rintro (hc | hc)
      · exact hs _ _ hc
      · exact hw _ _ hc
    · simp only [List.mem_append]
      rintro ((hc | hc) | hc)
      · exact hs _ _ hc
      · exact hw _ _ hc
      · simp at hc

theorem jsElapsed_eq_spec (a b : Nat) (hle : a ≤ b) :
    jsElapsedString (a : Int) (b : Int) = specElapsedHMS a b := by
  have h0 : (b : Int) - (a : Int) = ((b - a : Nat) : Int) := by omega
  have hfd1000 : ∀ m : Nat, Int.fdiv ((m : Nat) : Int) (1000 : Int) = ((m / 1000 : Nat) : Int) :=
    fun m => (Int.ofNat_fdiv m 1000).symm
  have hfd3600 : ∀ m : Nat, Int.fdiv ((m : Nat) : Int) (3600 : Int) = ((m / 3600 : Nat) : Int) :=
    fun m => (Int.ofNat_fdiv m 3600).symm
  have hfd60 : ∀ m : Nat, Int.fdiv ((m : Nat) : Int) (60 : Int) = ((m / 60 : Nat) : Int) :=
    fun m => (Int.ofNat_fdiv m 60).symm
  have htm3600 : ∀ m : Nat, Int.tmod ((m : Nat) : Int) (3600 : Int) = ((m % 3600 : Nat) : Int) :=
    fun _ => rfl
  have htm60 : ∀ m : Nat, Int.tmod ((m : Nat) : Int) (60 : Int) = ((m % 60 : Nat) : Int) :=
    fun _ => rfl
  have hts : ∀ n : Nat, toString ((n : Nat) : Int) = toString n := fun _ => rfl
  unfold jsElapsedString specElapsedHMS
  simp only [h0, hfd1000, hfd3600, hfd60, htm3600, htm60, hts]

theorem screenPath_decompose (uid sid ts : String) :
    screenPath uid sid ts = uid ++ "/" ++ sid ++ "/" ++ "screen" ++ "_" ++ ts ++ ".jpg" := by
  unfold screenPath
  rw [show ("/screen_" : String) = "/" ++ "screen" ++ "_" from by decide]
  simp [String.append_assoc]

theorem cleanupTimers_no_capture (s : TrackerState)
    (hinv : ∀ t ∈ s.timers, t.kind = TimerKind.capture → s.intervalRef = some t.id) :
    ∀ t ∈ cleanupTimers s, t.kind ≠ TimerKind.capture := by
  intro t ht hk
  have hj := hinv t (mem_cleanupTimers ht) hk
  unfold cleanupTimers at ht
  rw [hj] at ht
  exact (mem_clearIntervalJs.mp ht).2 rfl

theorem handleStopTracking_ok_timers (s : TrackerState) (db : DB) (o : StopOracle)
    (e : TimeEntry) (hRun : s.currentTimeEntry = some e) (hOk : o.updateOk = true) :
    ∀ t ∈ (handleStopTracking s db o).state.timers, t ∈ cleanupTimers s := by
  unfold handleStopTracking
  rw [hRun]
  dsimp only
  rw [if_pos hOk, setCurrentTimeEntryEff_none s e o.nowMs hRun]
  dsimp only
  cases hr : s.intervalRef with
  | none => dsimp only; intro t ht; exact ht
  | some i => dsimp only; intro t ht; exact (mem_clearIntervalJs.mp ht).1

theorem handleStopTracking_frame (s : TrackerState) (db : DB) (o : StopOracle) :
    (handleStopTracking s db o).state.hasScreenPermission = s.hasScreenPermission ∧
    (handleStopTracking s db o).state.hasWebcamPermission = s.hasWebcamPermission ∧
    (∀ t ∈ (handleStopTracking s db o).state.timers, t ∈ s.timers) ∧
    (handleStopTracking s db o).db.screenshots = db.screenshots := by
  unfold handleStopTracking
  cases hc : s.currentTimeEntry with
  | none => exact ⟨rfl, rfl, fun t ht => ht, rfl⟩
  | some e =>
    dsimp only
    by_cases hOk : o.updateOk = true
    · rw [if_pos hOk, setCurrentTimeEntryEff_none s e o.nowMs hc]
      dsimp only
      refine ⟨?_, ?_, ?_, rfl⟩
      · cases hr : s.intervalRef <;> rfl
      · cases hr : s.intervalRef <;> rfl
      · cases hr : s.intervalRef with
        | none => dsimp only; intro t ht; exact mem_cleanupTimers ht
        | some i =>
          dsimp only
          intro t ht
          exact mem_cleanupTimers (mem_clearIntervalJs.mp ht).1
    · rw [if_neg hOk]
      exact ⟨rfl, rfl, fun t ht => ht, rfl⟩

theorem handleStartTracking_ok_entries (s : TrackerState) (db : DB) (o : StartOracle)
    (hIns : o.insertOk = true) :
    (handleStartTracking s db o).db.time_entries
      = db.time_entries ++ [⟨o.newId, s.user_id, o.nowMs, none⟩] := by
  unfold handleStartTracking
  rw [if_pos hIns]
  dsimp only
  split
  · rw [captureScreenshots_entries]
  · rfl

theorem length_filter_le_of_imp {α : Type} (l : List α) (p q : α → Bool)
    (h : ∀ a ∈ l, p a = true → q a = true) :
    (l.filter p).length ≤ (l.filter q).length := by
  induction l with
  | nil => simp
  | cons a l ih =>
    have ih' := ih (fun x hx => h x (List.mem_cons_of_mem a hx))
    by_cases hp : p a = true
    · have hq := h a (List.mem_cons_self a l) hp
      simp only [List.filter_cons, hp, hq, if_true, List.length_cons]
      exact Nat.succ_le_succ ih'
    · rw [List.filter_cons, if_neg hp]
      by_cases hq : q a = true
      · rw [List.filter_cons, if_pos hq]
        exact Nat.le_trans ih' (Nat.le_succ _)
      · rw [List.filter_cons, if_neg hq]
        exact ih'

theorem screensOf_congr {db db' : DB} (sid : String)
    (h : db.screenshots = db'.screenshots) : screensOf db sid = screensOf db' sid := by
  unfold screensOf
  rw [h]

theorem midStep_deniedInv (sid : String) (c : Config) (ev : MidEv)
    (h : deniedInv sid c) : deniedInv sid (midStep c ev) := by
  obtain ⟨h1, h2, h3, h4⟩ := h
  cases ev with
  | fire i nowMs o =>
    unfold midStep
    dsimp only
    cases hf : c.state.timers.find? (fun t => t.id = i) with
    | none => exact ⟨h1, h2, h3, h4⟩
    | some t =>
      cases hk : t.kind with
      | capture => exact absurd hk (h3 t (List.mem_of_find?_eq_some hf))
      | elapsedDisplay =>
        dsimp only
        rw [hk]
        dsimp only
        obtain ⟨u1, u2, u3, u4, _, _, _⟩ := updateElapsedTime_timers c.state nowMs
        refine ⟨u3.trans h1, u4.trans h2, ?_, h4⟩
        intro t' ht'
        rw [u1] at ht'
        exact h3 t' ht'
  | stopAttempt o =>
    unfold midStep
    dsimp only
    obtain ⟨f1, f2, f3, f4⟩ := handleStopTracking_frame c.state c.db o
    exact ⟨f1.trans h1, f2.trans h2, fun t ht => h3 t (f3 t ht),
      (screensOf_congr sid f4).trans h4⟩

theorem runMid_deniedInv (sid : String) (evs : List MidEv) :
    ∀ c : Config, deniedInv sid c → deniedInv sid (runMid c evs) := by
  induction evs with
  | nil => intro c h; exact h
  | cons ev evs ih =>
    intro c h
    exact ih (midStep c ev) (midStep_deniedInv sid c ev h)

/-! ### Claims -/

/-- C3: for every valid start timestamp and every `now ≥ start`, the elapsed
display is the zero-padded `HH:MM:SS` string obtained by decomposing
`floor((now - start) / 1000)` seconds into hours, minutes and seconds, each
component padded to at least two digits. -/
theorem elapsed_time_formats_as_spec (s : TrackerState) (e : TimeEntry) (nowMs : Nat)
    (h : s.currentTimeEntry = some e) (hle : e.start_time ≤ nowMs) :
    (updateElapsedTime s nowMs).elapsedTime = specElapsedHMS e.start_time nowMs := by
  unfold updateElapsedTime
  rw [h]
  exact jsElapsed_eq_spec e.start_time nowMs hle

/-- Witness for C3: one hour, one minute, one second after a start at epoch 0. -/
theorem elapsed_time_formats_witness :
    (updateElapsedTime wsRunning 3661000).elapsedTime = specElapsedHMS 0 3661000 :=
  elapsed_time_formats_as_spec wsRunning wsEntry 3661000 rfl (by decide)

/-- C5: lifecycle transitions are atomic under persistence failures.  A failed
session insert leaves the state Idle, arms nothing and writes nothing; a
failed `end_time` update leaves the state Running with its timers intact and
the collections untouched, so stop can be retried. -/
theorem lifecycle_atomic_on_persistence_failure :
    (∀ (s : TrackerState) (db : DB) (o : StartOracle),
        s.currentTimeEntry = none → o.insertOk = false →
        (handleStartTracking s db o).state.currentTimeEntry = none ∧
        (handleStartTracking s db o).state.timers = s.timers ∧
        (handleStartTracking s db o).db = db)
    ∧ (∀ (s : TrackerState) (db : DB) (o : StopOracle) (e : TimeEntry),
        s.currentTimeEntry = some e → o.updateOk = false →
        (handleStopTracking s db o).state.currentTimeEntry = some e ∧
        (handleStopTracking s db o).state.timers = s.timers ∧
        (handleStopTracking s db o).db = db) := by
  constructor
  · intro s db o hIdle hFail
    unfold handleStartTracking
    rw [if_neg (by rw [hFail]; exact Bool.false_ne_true)]
    exact ⟨hIdle, rfl, rfl⟩
  · intro s db o e hRun hFail
    unfold handleStopTracking
    rw [hRun]
    dsimp only
    rw [if_neg (by rw [hFail]; exact Bool.false_ne_true)]
    exact ⟨rfl, rfl, rfl⟩

/-- Witness for C5 at concrete failing oracles. -/
theorem lifecycle_atomic_witness :
    ((handleStartTracking wsIdle wsDBEmpty wsStartFail).state.currentTimeEntry = none ∧
      (handleStartTracking wsIdle wsDBEmpty wsStartFail).state.timers = wsIdle.timers ∧
      (handleStartTracking wsIdle wsDBEmpty wsStartFail).db = wsDBEmpty)
    ∧ ((handleStopTracking wsRunning wsDBRun wsStopFail).state.currentTimeEntry = some wsEntry ∧
      (handleStopTracking wsRunning wsDBRun wsStopFail).state.timers = wsRunning.timers ∧
      (handleStopTracking wsRunning wsDBRun wsStopFail).db = wsDBRun) :=
  ⟨lifecycle_atomic_on_persistence_failure.1 wsIdle wsDBEmpty wsStartFail rfl rfl,
    lifecycle_atomic_on_persistence_failure.2 wsRunning wsDBRun wsStopFail wsEntry rfl rfl⟩

/-- C6: calling stop while no session is running is a complete no-op: the
state (including the error banner), the collections and the effect trace are
all untouched. -/
theorem stop_when_idle_noop (s : TrackerState) (db : DB) (o : StopOracle)
    (h : s.currentTimeEntry = none) :
    handleStopTracking s db o = ⟨s, db, []⟩ := by
  unfold handleStopTracking
  rw [h]

/-- Witness for C6. -/
theorem stop_when_idle_noop_witness :
    handleStopTracking wsIdle wsDBEmpty wsStop = ⟨wsIdle, wsDBEmpty, []⟩ :=
  stop_when_idle_noop wsIdle wsDBEmpty wsStop rfl

/-- C10: a capture cycle invoked while no session is current has no observable
effect: it returns the state (permission flags included) and the collections
unchanged, performs no stream acquisition, no upload and no insert (empty
effect list), and stages no rows. -/
theorem idle_cycle_no_effect (s : TrackerState) (db : DB) (o : CycleOracle)
    (h : s.currentTimeEntry = none) :
    captureScreenshots s db o = ⟨s, db, [], []⟩ :=
  captureScreenshots_none s db o h

/-- Witness for C10. -/
theorem idle_cycle_no_effect_witness :
    captureScreenshots wsIdle wsDBEmpty wsCycle = ⟨wsIdle, wsDBEmpty, [], []⟩ :=
  idle_cycle_no_effect wsIdle wsDBEmpty wsCycle rfl

/-- C9: every row staged by one capture cycle carries the cycle's single
shared timestamp as `taken_at`, and its storage path is
`user_id/session_id/kind_timestamp.jpg` built from that same timestamp; in
particular all rows of one cycle share an identical `taken_at`. -/
theorem cycle_shared_timestamp_and_paths (s : TrackerState) (db : DB) (o : CycleOracle)
    (e : TimeEntry) (h : s.currentTimeEntry = some e) :
    ∀ r ∈ (captureScreenshots s db o).insertData,
      r.taken_at = o.timestamp ∧
      r.storage_path
        = s.user_id ++ "/" ++ e.id ++ "/" ++ kindName r.type ++ "_" ++ o.timestamp ++ ".jpg" := by
  rw [captureScreenshots_some_insertData s db o e h]
  intro r hr
  rcases List.mem_append.mp hr with hr | hr
  · unfold screenBranch at hr
    split_ifs at hr with h1 h2
    · simp at hr
    · simp only [List.mem_singleton] at hr
      subst hr
      refine ⟨rfl, ?_⟩
      rw [screenPath_decompose]
      rfl
    · simp at hr
  · unfold webcamBranch at hr
    split_ifs at hr <;> simp at hr

/-- Witness for C9: a cycle whose screen capture and upload succeed stages a
screen row shaped as the claim requires. -/
theorem cycle_shared_timestamp_witness :
    (⟨"entry-1", "user-1/entry-1/screen_2024-01-01T00:00:00.000Z.jpg", CaptureKind.screen,
        "2024-01-01T00:00:00.000Z"⟩ : Screenshot).taken_at = wsCycle.timestamp ∧
    (⟨"entry-1", "user-1/entry-1/screen_2024-01-01T00:00:00.000Z.jpg", CaptureKind.screen,
        "2024-01-01T00:00:00.000Z"⟩ : Screenshot).storage_path
      = wsRunning.user_id ++ "/" ++ wsEntry.id ++ "/"
          ++ kindName CaptureKind.screen ++ "_" ++ wsCycle.timestamp ++ ".jpg" :=
  cycle_shared_timestamp_and_paths wsRunning wsDBRun wsCycle wsEntry rfl
    ⟨"entry-1", "user-1/entry-1/screen_2024-01-01T00:00:00.000Z.jpg", CaptureKind.screen,
      "2024-01-01T00:00:00.000Z"⟩ (by decide)

/-- C1: evaluation of the code at the claim's failing input.  On a first
start (the click render's flags are still their initial `false`), the insert
succeeds and the probe grants BOTH permissions, yet line 208 — reading the
click render's pre-probe flag values — takes the else branch: no capture
cycle is invoked and no capture timer is armed (only the elapsed-display
interval exists), contrary to the claimed one immediate cycle plus 300 s
timer.  The probe's results do land in the state (for later renders), which
the last two conjuncts record. -/
theorem first_start_ignores_probe :
    wsStartGranted.probe.screen = true ∧ wsStartGranted.probe.webcam = true
    ∧ (handleStartTracking wsIdle wsDBEmpty wsStartGranted).events.count Effect.cycleInvoked = 0
    ∧ (handleStartTracking wsIdle wsDBEmpty wsStartGranted).state.timers
        = [⟨0, TimerKind.elapsedDisplay, 1000⟩]
    ∧ (handleStartTracking wsIdle wsDBEmpty wsStartGranted).state.hasScreenPermission = true
    ∧ (handleStartTracking wsIdle wsDBEmpty wsStartGranted).state.hasWebcamPermission = true := by
  decide

/-- C2: a successful stop disarms the capture scheduler — afterwards no
capture timer is armed, given the session invariant that every armed capture
timer is the one held by `intervalRef`; clearing an id that is not armed is a
no-op; elapsed-time display updates never touch the timer set or
`intervalRef`; a capture cycle never touches them either; and a start from
Idle re-establishes the invariant, so the disarm argument applies to every
session however many display updates and cycles ran in between. -/
theorem stop_disarms_capture_scheduler :
    (∀ (s : TrackerState) (db : DB) (o : StopOracle) (e : TimeEntry),
        s.currentTimeEntry = some e → o.updateOk = true →
        (∀ t ∈ s.timers, t.kind = TimerKind.capture → s.intervalRef = some t.id) →
        ∀ t ∈ (handleStopTracking s db o).state.timers, t.kind ≠ TimerKind.capture)
    ∧ (∀ (ts : List Timer) (i : Nat), (∀ t ∈ ts, t.id ≠ i) → clearIntervalJs ts i = ts)
    ∧ (∀ (s : TrackerState) (nowMs : Nat),
        (updateElapsedTime s nowMs).timers = s.timers ∧
        (updateElapsedTime s nowMs).intervalRef = s.intervalRef)
    ∧ (∀ (s : TrackerState) (db : DB) (o : CycleOracle),
        (captureScreenshots s db o).state.timers = s.timers ∧
        (captureScreenshots s db o).state.intervalRef = s.intervalRef)
    ∧ (∀ (s : TrackerState) (db : DB) (o : StartOracle), s.currentTimeEntry = none →
        (∀ t ∈ s.timers, t.kind = TimerKind.capture → s.intervalRef = some t.id) →
        ∀ t ∈ (handleStartTracking s db o).state.timers, t.kind = TimerKind.capture →
          (handleStartTracking s db o).state.intervalRef = some t.id) := by
  refine ⟨?_, ?_, ?_, ?_, ?_⟩
  · intro s db o e hRun hOk hinv t ht
    exact cleanupTimers_no_capture s hinv t
      (handleStopTracking_ok_timers s db o e hRun hOk t ht)
  · intro ts i h
    unfold clearIntervalJs
    exact List.filter_eq_self.mpr (fun t ht => by
      simp only [decide_eq_true_eq]
      exact h t ht)
  · intro s nowMs
    obtain ⟨u1, u2, _⟩ := updateElapsedTime_timers s nowMs
    exact ⟨u1, u2⟩
  · intro s db o
    obtain ⟨_, _, f3, f4, _⟩ := captureScreenshots_frame s db o
    exact ⟨f3, f4⟩
  · intro s db o hIdle hinv
    have hne : s.currentTimeEntry ≠ some (⟨o.newId, s.user_id, o.nowMs, none⟩ : TimeEntry) := by
      rw [hIdle]
      exact fun hx => Option.noConfusion hx
    by_cases hIns : o.insertOk = true
    · unfold handleStartTracking
      rw [if_pos hIns]
      dsimp only
      rw [setCurrentTimeEntryEff_some s _ o.nowMs hne]
      unfold checkPermissionsEff
      dsimp only
      by_cases hG : (s.hasScreenPermission || s.hasWebcamPermission) = true
      · rw [if_pos hG]
        dsimp only
        intro t ht hk
        rcases List.mem_append.mp ht with ht | ht
        · rcases List.mem_append.mp ht with ht | ht
          · exact absurd hk (cleanupTimers_no_capture s hinv t ht)
          · rw [List.mem_singleton.mp ht] at hk
            exact absurd hk (fun hx => TimerKind.noConfusion hx)
        · rw [List.mem_singleton.mp ht]
          rfl
      · rw [if_neg hG]
        dsimp only
        intro t ht hk
        rcases List.mem_append.mp ht with ht | ht
        · exact absurd hk (cleanupTimers_no_capture s hinv t ht)
        · rw [List.mem_singleton.mp ht] at hk
          exact absurd hk (fun hx => TimerKind.noConfusion hx)
    · unfold handleStartTracking
      rw [if_neg hIns]
      exact hinv

/-- Witness for C2: after stopping the sample running session, the capture
timer (id 1) is no longer armed. -/
theorem stop_disarms_witness :
    (⟨1, TimerKind.capture, 300000⟩ : Timer)
      ∉ (handleStopTracking wsRunning wsDBRun wsStop).state.timers :=
  fun h =>
    stop_disarms_capture_scheduler.1 wsRunning wsDBRun wsStop wsEntry rfl rfl
      (by decide) ⟨1, TimerKind.capture, 300000⟩ h rfl

/-- C7: at most one open session per user.  The mount-time query answers
`none` exactly when the user has no open entry (so the Idle precondition it
establishes means "no open session"); a start from that state leaves at most
one (exactly one) open entry; and a stop never increases the number of open
entries. -/
theorem at_most_one_open_session :
    (∀ (db : DB) (uid : String), queryOpenEntry db uid = none ↔ openEntries db uid = [])
    ∧ (∀ (s : TrackerState) (db : DB) (o : StartOracle),
        s.currentTimeEntry = none → openEntries db s.user_id = [] → o.insertOk = true →
        (openEntries (handleStartTracking s db o).db s.user_id).length ≤ 1)
    ∧ (∀ (s : TrackerState) (db : DB) (o : StopOracle) (uid : String),
        (openEntries db uid).length ≤ 1 →
        (openEntries (handleStopTracking s db o).db uid).length ≤ 1) := by
  refine ⟨?_, ?_, ?_⟩
  · intro db uid
    unfold queryOpenEntry
    rw [List.head?_eq_none_iff]
    constructor
    · intro h
      have hlen := congrArg List.length h
      rw [List.length_mergeSort] at hlen
      simp only [List.length_nil] at hlen
      exact List.length_eq_zero.mp hlen
    · intro h
      rw [h]
      exact List.mergeSort_nil
  · intro s db o hIdle hOpen hIns
    have he := handleStartTracking_ok_entries s db o hIns
    unfold openEntries at hOpen ⊢
    rw [he, List.filter_append, hOpen]
    simp
  · intro s db o uid hle
    unfold handleStopTracking
    cases hc : s.currentTimeEntry with
    | none => exact hle
    | some e =>
      dsimp only
      by_cases hOk : o.updateOk = true
      · rw [if_pos hOk]
        dsimp only
        unfold openEntries at hle ⊢
        dsimp only
        rw [List.filter_map]
        rw [List.length_map]
        refine Nat.le_trans (length_filter_le_of_imp db.time_entries _ _ ?_) hle
        intro a _ hpa
        by_cases hid : a.id = e.id
        · exfalso
          simp only [Function.comp_apply, hid, if_pos rfl, decide_eq_true_eq] at hpa
          exact Option.noConfusion hpa.2
        · simpa only [Function.comp_apply, if_neg hid] using hpa
      · rw [if_neg hOk]
        exact hle

/-- Witness for C7: starting from the sample idle state over an empty
collection leaves at most one open entry. -/
theorem at_most_one_open_session_witness :
    (openEntries (handleStartTracking wsIdle wsDBEmpty wsStartGranted).db "user-1").length ≤ 1 :=
  at_most_one_open_session.2.1 wsIdle wsDBEmpty wsStartGranted rfl rfl rfl

/-- C4 counterexample: a start whose click render still holds granted flags
from an earlier session (granted then, revoked since — `wsIdleStale`) arms
the capture interval even though the probe denies BOTH permissions, because
line 208 reads the stale click-render flags: this refutes "the Capture
Scheduler is never armed" as the claim states it. -/
theorem denied_probe_still_arms_counterexample :
    wsStartDenied.probe.screen = false ∧ wsStartDenied.probe.webcam = false
    ∧ (⟨3, TimerKind.capture, 300000⟩ : Timer)
        ∈ (handleStartTracking wsIdleStale wsDBEmpty wsStartDenied).state.timers
    ∧ ¬ (∀ t ∈ (handleStartTracking wsIdleStale wsDBEmpty wsStartDenied).state.timers,
          t.kind ≠ TimerKind.capture) := by
  decide

/-- C4 (amended): for every session started from a click render whose
permission flags were both false (in particular any first start) with the
probe denying both permissions, the Capture Scheduler is never armed and zero
Capture records are created for the session, whatever sequence of timer
firings and stop attempts follows.  (When the click render's flags were still
granted from an earlier session, line 208's stale read arms the interval
despite the probe's denial — the counterexample — though each of the
interval's callbacks closes over a null current entry and bails at
line 238.) -/
theorem denied_session_never_captures (s : TrackerState) (db : DB) (o : StartOracle)
    (evs : List MidEv)
    (hIdle : s.currentTimeEntry = none) (hIns : o.insertOk = true)
    (hSS : s.hasScreenPermission = false) (hSW : s.hasWebcamPermission = false)
    (hS : o.probe.screen = false) (hW : o.probe.webcam = false)
    (hNoCap : ∀ t ∈ s.timers, t.kind ≠ TimerKind.capture)
    (hFresh : screensOf db o.newId = []) :
    (∀ t ∈ (runMid ⟨(handleStartTracking s db o).state,
        (handleStartTracking s db o).db⟩ evs).state.timers, t.kind ≠ TimerKind.capture)
    ∧ screensOf (runMid ⟨(handleStartTracking s db o).state,
        (handleStartTracking s db o).db⟩ evs).db o.newId = [] := by
  have hne : s.currentTimeEntry ≠ some (⟨o.newId, s.user_id, o.nowMs, none⟩ : TimeEntry) := by
    rw [hIdle]
    exact fun hx => Option.noConfusion hx
  have h0 : deniedInv o.newId
      ⟨(handleStartTracking s db o).state, (handleStartTracking s db o).db⟩ := by
    unfold handleStartTracking
    rw [if_pos hIns]
    dsimp only
    rw [setCurrentTimeEntryEff_some s _ o.nowMs hne]
    unfold checkPermissionsEff
    dsimp only
    rw [if_neg (by rw [hSS, hSW]; exact Bool.false_ne_true)]
    refine ⟨hS, hW, ?_, ?_⟩
    · intro t ht
      rcases List.mem_append.mp ht with ht | ht
      · exact hNoCap t (mem_cleanupTimers ht)
      · rw [List.mem_singleton.mp ht]
        exact fun hx => TimerKind.noConfusion hx
    · unfold screensOf at hFresh ⊢
      exact hFresh
  have h1 := runMid_deniedInv o.newId evs _ h0
  exact ⟨h1.2.2.1, h1.2.2.2⟩

/-- Witness for C4: a denied-permissions session fires the display interval
and survives a failed stop without ever gaining a screenshot row. -/
theorem denied_session_witness :
    screensOf (runMid ⟨(handleStartTracking wsIdle wsDBEmpty wsStartDenied).state,
        (handleStartTracking wsIdle wsDBEmpty wsStartDenied).db⟩
      [MidEv.fire 0 5000 wsCycle, MidEv.stopAttempt wsStopFail]).db "entry-1" = [] :=
  (denied_session_never_captures wsIdle wsDBEmpty wsStartDenied
      [MidEv.fire 0 5000 wsCycle, MidEv.stopAttempt wsStopFail]
      rfl rfl rfl rfl rfl rfl (by simp [wsIdle]) rfl).2

/-- C8: evaluation of the code at the claim's failing inputs.  `base64ToBlob`
(line 283) is not defined or imported anywhere in the repository, so a webcam
capture can never succeed: whenever `getScreenshot()` returns an image the
branch throws there and the webcam flag is downgraded.  In a cycle where the
screen capture throws and a webcam shot is returned (the claim expects one
webcam record plus a screen downgrade), the code stages ZERO rows and
downgrades BOTH flags — the webcam branch does still run, so nothing is
aborted.  In a cycle where instead the screen UPLOAD fails, the failure is
invisible (line 262 discards the supabase result, which is returned rather
than thrown): the code stages exactly one row of kind SCREEN — dangling
metadata for a blob that was never stored — keeps `hasScreenPermission`
true, and downgrades only the webcam flag. -/
theorem webcam_capture_never_succeeds :
    (captureScreenshots wsRunning wsDBRun c8ThrowInput).insertData = []
    ∧ (captureScreenshots wsRunning wsDBRun c8ThrowInput).state.hasScreenPermission = false
    ∧ (captureScreenshots wsRunning wsDBRun c8ThrowInput).state.hasWebcamPermission = false
    ∧ Effect.webcamFrame ∈ (captureScreenshots wsRunning wsDBRun c8ThrowInput).events
    ∧ (captureScreenshots wsRunning wsDBRun c8UploadInput).insertData
        = [⟨"entry-1", "user-1/entry-1/screen_2024-01-01T00:00:00.000Z.jpg",
            CaptureKind.screen, "2024-01-01T00:00:00.000Z"⟩]
    ∧ (captureScreenshots wsRunning wsDBRun c8UploadInput).state.hasScreenPermission = true
    ∧ (captureScreenshots wsRunning wsDBRun c8UploadInput).state.hasWebcamPermission = false := by
  decide

end TimeTrackerSpec
